import Mathlib

/-!
Shallow embedding of `app.py`, the QA call-center dashboard script.

The script has three parts that the verified claims are about:

* `load_data` (lines 19-94): builds a 600-row table of synthetic call
  records from numpy's seeded random number generator.  We model one
  row's random draws as a `Draw` record (each field is one sample of
  the corresponding `np.random.*` call, constrained by `Draw.Valid` to
  the range that call can produce) and the per-column formulas of
  lines 39-92 as functions of a `Draw`.  `load_data` is then `map mkRow`
  over the stream of draws.
* the sidebar filters (lines 105-125): `Filters` models the widget
  state (`none` for the "Todos"/"Todas" selections) and `applyFilters`
  the successive dataframe narrowing of lines 119-125.
* the aggregations (lines 127-141): pandas `.mean()` (`NaN`, modelled
  as `none`, on an empty column), and the `groupby` aggregations
  `qa_ag` / `sc_data` of lines 135 and 141.

Rationals stand for the numpy floats, with `np.clip` as `clipQ` and
`.round(1)` as `round1` (round half to even, as numpy documents).
-/

/-! ## Dates

All generated dates lie in 2024 (line 38: `fecha_inicio` is 2024-01-01,
line 39 adds `randint(0, 365)` days).  A date is represented by its
month and day; `dateOfOffset` converts the generated day offset into a
date using the 2024 (leap-year) month lengths, `Date.toOffset` is the
inverse.  2024-01-01 is a Monday, so Python's `datetime.weekday()`
(Monday = 0) of offset `d` is `d % 7`. -/

def monthLengths2024 : List Nat := [31, 29, 31, 30, 31, 30, 31, 31, 30, 31, 30, 31]

structure Date where
  month : Nat
  day : Nat
deriving DecidableEq

def dateOfOffsetAux : Nat → Nat → List Nat → Date
  | d, m, [] => { month := m, day := d + 1 }
  | d, m, len :: rest =>
    if d < len then { month := m, day := d + 1 } else dateOfOffsetAux (d - len) (m + 1) rest

def dateOfOffset (d : Nat) : Date := dateOfOffsetAux d 1 monthLengths2024

def Date.toOffset (dt : Date) : Nat :=
  (monthLengths2024.take (dt.month - 1)).sum + (dt.day - 1)

/-- Python `datetime.weekday()`: Monday = 0, for dates in 2024. -/
def weekdayOfDate (dt : Date) : Nat := dt.toOffset % 7

/-- Comparison of the `fecha` datetimes in line 119, via the day offset. -/
def dateLE (a b : Date) : Bool := a.toOffset ≤ b.toOffset

/-- `f.strftime("%Y-%m-%d")` of line 78 for a 2024 date. -/
def pad2 (n : Nat) : String := if n < 10 then "0" ++ toString n else toString n

def strftimeD (dt : Date) : String := "2024-" ++ pad2 dt.month ++ "-" ++ pad2 dt.day

def digitVal (c : Char) : Nat := c.toNat - 48

/-- `pd.to_datetime` of line 93 on an ISO `YYYY-MM-DD` string (the only
format line 78 produces): extract month and day, `none` on anything
else. -/
def parseDate (s : String) : Option Date :=
  match s.data with
  | [y1, y2, y3, y4, '-', m1, m2, '-', d1, d2] =>
    if ([y1, y2, y3, y4, m1, m2, d1, d2].all Char.isDigit) then
      if digitVal y1 * 1000 + digitVal y2 * 100 + digitVal y3 * 10 + digitVal y4 = 2024 then
        some { month := digitVal m1 * 10 + digitVal m2, day := digitVal d1 * 10 + digitVal d2 }
      else none
    else none
  | _ => none

/-! ## numpy arithmetic helpers -/

/-- `np.clip(x, lo, hi)`. -/
def clipQ (lo hi x : ℚ) : ℚ := min (max x lo) hi

/-- Round to the nearest integer, halves to the even neighbour, as
numpy's `round` documents. -/
def roundEven (x : ℚ) : ℤ :=
  if x - ⌊x⌋ < 1/2 then ⌊x⌋
  else if 1/2 < x - ⌊x⌋ then ⌊x⌋ + 1
  else if ⌊x⌋ % 2 = 0 then ⌊x⌋ else ⌊x⌋ + 1

/-- numpy `.round(1)`: round to one decimal place. -/
def round1 (x : ℚ) : ℚ := (roundEven (10 * x) : ℚ) / 10

/-! ## The generator `load_data` (lines 19-94)

`agentes`, `categorias`, `turnos`, `dias_nombres` are the literal
tables of lines 24-36 and 75.  A `Draw` packs the random samples that
lines 39-73 consume for one row; `Draw.Valid` records the ranges the
numpy calls guarantee (`randint(a, b)` is `a ≤ x < b`, `choice` picks
an index into the given list, `uniform(5, 10)` lies in that interval,
the `normal(...)` samples are unconstrained reals). -/

def agentes : List (String × String × Nat) :=
  [("AG01", "Carlos Mendez", 36), ("AG02", "Laura Rios", 24), ("AG03", "Jorge Castillo", 6),
   ("AG04", "Valentina Cruz", 18), ("AG05", "Andres Morales", 48), ("AG06", "Sofia Herrera", 12),
   ("AG07", "Miguel Torres", 30), ("AG08", "Daniela Vargas", 3)]

def categorias : List String :=
  ["Venta Nueva", "Renovacion", "Queja", "Soporte Tecnico", "Cancelacion"]

def turnos : List String := ["Manana", "Tarde", "Noche"]

def dias_nombres : List String := ["Lun", "Mar", "Mie", "Jue", "Vie", "Sab", "Dom"]

structure Draw where
  dateOff : Nat        -- line 39: np.random.randint(0, 365)
  agentIdx : Nat       -- line 43: np.random.choice over the 8 agent ids
  turnoIdx : Nat       -- line 46: np.random.choice over the 3 shifts
  llamadasBase : Nat   -- line 48: np.random.randint(10, 30)
  bonusDia : Nat       -- line 49: np.random.randint(4, 9)
  bonusDic : Nat       -- line 50: np.random.randint(3, 7)
  catIdx : Nat         -- line 53: np.random.choice over the 5 categories
  duracionBase : ℚ     -- line 54: np.random.normal(8, 2)
  bonusCancel : ℚ      -- line 55: np.random.uniform(5, 10)
  ruido : ℚ            -- line 59: np.random.normal(0, 0.8)
  qaNoise : ℚ          -- line 65: np.random.normal(0, 8)
  tasaNoise : ℚ        -- line 69: np.random.normal(0, 3)
  resol : Bool         -- line 73: np.random.choice(["Si", "No"])

abbrev Draw.Valid (dw : Draw) : Prop :=
  dw.dateOff < 365 ∧ dw.agentIdx < 8 ∧ dw.turnoIdx < 3 ∧
  10 ≤ dw.llamadasBase ∧ dw.llamadasBase < 30 ∧
  4 ≤ dw.bonusDia ∧ dw.bonusDia < 9 ∧
  3 ≤ dw.bonusDic ∧ dw.bonusDic < 7 ∧
  dw.catIdx < 5 ∧ (5 : ℚ) ≤ dw.bonusCancel ∧ dw.bonusCancel ≤ 10

/-! Per-column formulas of lines 39-73, one row at a time. -/

def fechaOf (dw : Draw) : Date := dateOfOffset dw.dateOff            -- line 39

def dia_semanaOf (dw : Draw) : Nat := dw.dateOff % 7                 -- line 40

def mesOf (dw : Draw) : Nat := (fechaOf dw).month                    -- line 41

def agenteOf (dw : Draw) : String × String × Nat :=
  agentes.getD dw.agentIdx ("AG01", "Carlos Mendez", 36)             -- lines 43-45

def id_agenteOf (dw : Draw) : String := (agenteOf dw).1

def nombre_agenteOf (dw : Draw) : String := (agenteOf dw).2.1

def experienciaOf (dw : Draw) : Nat := (agenteOf dw).2.2

def turnoOf (dw : Draw) : String := turnos.getD dw.turnoIdx "Manana" -- line 46

def categoriaOf (dw : Draw) : String :=
  categorias.getD dw.catIdx "Venta Nueva"                            -- line 53

def llamadas_por_turno (dw : Draw) : Nat :=                          -- lines 48-51
  dw.llamadasBase +
    (if dia_semanaOf dw = 0 ∨ dia_semanaOf dw = 4 then dw.bonusDia else 0) +
    (if mesOf dw = 12 then dw.bonusDic else 0)

def duracion_promedio (dw : Draw) : ℚ :=                             -- lines 54-56
  round1 (clipQ 3 25 (dw.duracionBase +
    (if categoriaOf dw = "Cancelacion" then dw.bonusCancel else 0)))

def score_satisfaccion (dw : Draw) : ℚ :=                            -- lines 58-63
  round1 (clipQ 1 10
    ((5 + duracion_promedio dw * 0.15 + (experienciaOf dw : ℚ) * 0.03) + dw.ruido +
      (if llamadas_por_turno dw > 25 then -1.2 else 0) +
      (if categoriaOf dw = "Cancelacion" then -1.5 else 0) +
      (if turnoOf dw = "Noche" ∧ mesOf dw = 3 then -2.0 else 0)))

def score_qa (dw : Draw) : ℚ :=                                      -- lines 65-67
  round1 (clipQ 40 100
    ((60 + (experienciaOf dw : ℚ) * 0.5 + dw.qaNoise) +
      (if llamadas_por_turno dw > 25 then -8 else 0)))

def tasa_base (dw : Draw) : ℚ :=                                     -- line 69
  clipQ 2 40 (20 - (experienciaOf dw : ℚ) * 0.2 + dw.tasaNoise)

def tasa_error (dw : Draw) : ℚ :=                                    -- line 70
  round1 (if id_agenteOf dw = "AG04" then tasa_base dw * 1.8 else tasa_base dw)

def resolucionOf (dw : Draw) : String := if dw.resol then "Si" else "No"

/-- One row of the dataframe of lines 77-93.  `fecha` holds the
datetime that line 93 re-parses from the line 78 string; the claim
about that string round trip is proved below. -/
structure Row where
  fecha : Date
  mes : Nat
  dia_semana : String
  id_agente : String
  nombre_agente : String
  experiencia_meses : Nat
  turno : String
  categoria_llamada : String
  llamadas_por_turno : Nat
  duracion_promedio_min : ℚ
  score_satisfaccion : ℚ
  score_qa : ℚ
  tasa_error_pct : ℚ
  resolucion_primera : String
deriving DecidableEq

def mkRow (dw : Draw) : Row :=
  { fecha := fechaOf dw
    mes := mesOf dw
    dia_semana := dias_nombres.getD (dia_semanaOf dw) "Lun"
    id_agente := id_agenteOf dw
    nombre_agente := nombre_agenteOf dw
    experiencia_meses := experienciaOf dw
    turno := turnoOf dw
    categoria_llamada := categoriaOf dw
    llamadas_por_turno := llamadas_por_turno dw
    duracion_promedio_min := duracion_promedio dw
    score_satisfaccion := score_satisfaccion dw
    score_qa := score_qa dw
    tasa_error_pct := tasa_error dw
    resolucion_primera := resolucionOf dw }

/-- `load_data` (lines 19-94) applied to the stream of random draws the
seeded generator produces; the script calls it with 600 draws
(`n = 600`, line 22). -/
def load_data (draws : List Draw) : List Row := draws.map mkRow

/-- The key fields the spec declares to be one-per-row: (date, agent,
shift, category). -/
def keyOf (r : Row) : Date × String × String × String :=
  (r.fecha, r.id_agente, r.turno, r.categoria_llamada)

/-- The table has at most one row per (date, agent, shift, category). -/
def KeyUnique (df : List Row) : Prop := (df.map keyOf).Nodup

/-! ## Sidebar filters (lines 105-125)

`Filters` is the sidebar state: the two ends of the date-range widget
and the three selectboxes, where `none` stands for the "Todos" /
"Todas" choice that line 120/122/124 tests for. -/

structure Filters where
  fecha0 : Date
  fecha1 : Date
  turnoSel : Option String
  catSel : Option String
  agenteSel : Option String
deriving DecidableEq

/-- Line 119: keep the rows whose `fecha` lies between the two picked
dates, both comparisons non-strict. -/
def dateRangeFilter (d0 d1 : Date) (df : List Row) : List Row :=
  df.filter (fun r => dateLE d0 r.fecha && dateLE r.fecha d1)

/-- Lines 119-125: the date-range narrowing followed by the three
optional equality narrowings. -/
def applyFilters (fs : Filters) (df : List Row) : List Row :=
  let s1 := dateRangeFilter fs.fecha0 fs.fecha1 df
  let s2 := match fs.turnoSel with
    | none => s1
    | some t => s1.filter (fun r => r.turno == t)
  let s3 := match fs.catSel with
    | none => s2
    | some c => s2.filter (fun r => r.categoria_llamada == c)
  match fs.agenteSel with
  | none => s3
  | some a => s3.filter (fun r => r.nombre_agente == a)

/-- The conjunction of the active filter predicates: a row survives
lines 119-125 exactly when this holds. -/
def fullPred (fs : Filters) (r : Row) : Bool :=
  (dateLE fs.fecha0 r.fecha && dateLE r.fecha fs.fecha1) &&
  (match fs.turnoSel with | none => true | some t => r.turno == t) &&
  (match fs.catSel with | none => true | some c => r.categoria_llamada == c) &&
  (match fs.agenteSel with | none => true | some a => r.nombre_agente == a)

/-! ## KPI metrics and aggregations (lines 127-141) -/

/-- pandas `Series.mean()`: `NaN` on an empty column, modelled as
`none`; the arithmetic mean otherwise.  It never raises. -/
def pandasMean (xs : List ℚ) : Option ℚ :=
  if xs.isEmpty then none else some (xs.sum / (xs.length : ℚ))

/-- The arithmetic mean, as the spec words it. -/
def arithMean (xs : List ℚ) : ℚ := xs.sum / (xs.length : ℚ)

/-- Line 129: `df_f['score_qa'].mean()`. -/
def score_qa_promedio (df_f : List Row) : Option ℚ :=
  pandasMean (df_f.map Row.score_qa)

/-- Line 130: `df_f['score_satisfaccion'].mean()`. -/
def satisfaccion_promedio (df_f : List Row) : Option ℚ :=
  pandasMean (df_f.map Row.score_satisfaccion)

/-- Line 131: `df_f['tasa_error_pct'].mean()`. -/
def tasa_error_promedio (df_f : List Row) : Option ℚ :=
  pandasMean (df_f.map Row.tasa_error_pct)

/-- The distinct agent names of a frame in the order pandas `groupby`
yields them (sorted ascending, one group per distinct key). -/
def groupNames (df : List Row) : List String :=
  ((df.map Row.nombre_agente).dedup).mergeSort (fun a b => a ≤ b)

/-- Mean of column `f` over the group of rows of agent `a`. -/
def groupMean (df : List Row) (f : Row → ℚ) (a : String) : ℚ :=
  arithMean ((df.filter (fun r => r.nombre_agente == a)).map f)

/-- Line 135: `df_f.groupby("nombre_agente")["score_qa"].mean()`,
then `sort_values("score_qa", ascending=False)`. -/
def qa_ag (df_f : List Row) : List (String × ℚ) :=
  ((groupNames df_f).map (fun a => (a, groupMean df_f Row.score_qa a))).mergeSort
    (fun x y => y.2 ≤ x.2)

/-- Line 141: `df_f.groupby("nombre_agente").agg(...)`: mean QA score,
mean error rate and summed call volume per agent. -/
def sc_data (df_f : List Row) : List (String × ℚ × ℚ × Nat) :=
  (groupNames df_f).map (fun a =>
    (a, groupMean df_f Row.score_qa a, groupMean df_f Row.tasa_error_pct a,
      ((df_f.filter (fun r => r.nombre_agente == a)).map Row.llamadas_por_turno).sum))

/-- One interaction of the script after `df = load_data()` (line 96):
the full table is re-read, the filters of lines 119-125 derive the
view `df_f`, and nothing assigns to `df` (lines 96-168 only read it).
The state after the interaction is the pair (full table, derived
view). -/
def dashboardStep (df : List Row) (fs : Filters) : List Row × List Row :=
  (df, applyFilters fs df)

/-! ## Helper lemmas -/

lemma clipQ_le (lo hi x : ℚ) : clipQ lo hi x ≤ hi := min_le_right _ _

lemma le_clipQ (lo hi x : ℚ) (h : lo ≤ hi) : lo ≤ clipQ lo hi x :=
  le_min (le_trans (le_max_right x lo) (le_refl _)) h

lemma le_roundEven (x : ℚ) (n : ℤ) (h : (n : ℚ) ≤ x) : n ≤ roundEven x := by
  have hfl : n ≤ ⌊x⌋ := Int.le_floor.mpr h
  unfold roundEven
  split_ifs <;> omega

lemma roundEven_le (x : ℚ) (n : ℤ) (h : x ≤ (n : ℚ)) : roundEven x ≤ n := by
  have hfl : ⌊x⌋ ≤ n := by
    have := Int.floor_mono h
    rwa [Int.floor_intCast] at this
  unfold roundEven
  split_ifs with h1 h2 h3
  · exact hfl
  · have hx : (⌊x⌋ : ℚ) + 1/2 < x := by linarith
    have : (⌊x⌋ : ℚ) < n := lt_of_lt_of_le (by linarith [Int.floor_le x]) h
    have : ⌊x⌋ < n := by exact_mod_cast this
    omega
  · exact hfl
  · have hx : (⌊x⌋ : ℚ) + 1/2 ≤ x := by linarith
    have : (⌊x⌋ : ℚ) < n := lt_of_lt_of_le (by linarith) h
    have : ⌊x⌋ < n := by exact_mod_cast this
    omega

lemma le_round1 (x : ℚ) (n : ℤ) (h : (n : ℚ) / 10 ≤ x) : (n : ℚ) / 10 ≤ round1 x := by
  have h10 : (n : ℚ) ≤ 10 * x := by linarith
  have := le_roundEven (10 * x) n h10
  unfold round1
  rw [div_le_div_iff₀ (by norm_num) (by norm_num)]
  have : (n : ℚ) ≤ (roundEven (10 * x) : ℚ) := by exact_mod_cast this
  linarith

lemma round1_le (x : ℚ) (n : ℤ) (h : x ≤ (n : ℚ) / 10) : round1 x ≤ (n : ℚ) / 10 := by
  have h10 : 10 * x ≤ (n : ℚ) := by linarith
  have := roundEven_le (10 * x) n h10
  unfold round1
  rw [div_le_div_iff₀ (by norm_num) (by norm_num)]
  have : (roundEven (10 * x) : ℚ) ≤ (n : ℚ) := by exact_mod_cast this
  linarith

set_option maxRecDepth 100000 in
lemma toOffset_dateOfOffset : ∀ d : Nat, d < 365 → (dateOfOffset d).toOffset = d := by decide

set_option maxRecDepth 100000 in
set_option maxHeartbeats 1000000 in
lemma parse_strftime_dateOfOffset :
    ∀ d : Nat, d < 365 → parseDate (strftimeD (dateOfOffset d)) = some (dateOfOffset d) := by
  decide

lemma applyFilters_eq_filter (fs : Filters) (df : List Row) :
    applyFilters fs df = df.filter (fullPred fs) := by
  rcases fs with ⟨d0, d1, ts, cs, asel⟩
  unfold applyFilters dateRangeFilter fullPred
  cases ts <;> cases cs <;> cases asel <;>
    simp only [List.filter_filter] <;>
    refine List.filter_congr (fun r _ => ?_) <;>
    simp [Bool.and_comm, Bool.and_left_comm, Bool.and_assoc]

lemma pandasMean_of_ne_nil (xs : List ℚ) (h : xs ≠ []) :
    pandasMean xs = some (arithMean xs) := by
  unfold pandasMean arithMean
  rw [if_neg (by simpa using h)]

lemma qa_ag_fst_perm (df : List Row) :
    ((qa_ag df).map Prod.fst).Perm (df.map Row.nombre_agente).dedup := by
  unfold qa_ag groupNames
  refine ((List.mergeSort_perm _ _).map Prod.fst).trans ?_
  rw [List.map_map]
  have hid : (Prod.fst ∘ fun a : String => (a, groupMean df Row.score_qa a)) = id := rfl
  rw [hid, List.map_id]
  exact List.mergeSort_perm _ _

lemma sc_data_fst_perm (df : List Row) :
    ((sc_data df).map Prod.fst).Perm (df.map Row.nombre_agente).dedup := by
  unfold sc_data groupNames
  rw [List.map_map]
  have hid : (Prod.fst ∘ fun a : String =>
      (a, groupMean df Row.score_qa a, groupMean df Row.tasa_error_pct a,
        ((df.filter (fun r => r.nombre_agente == a)).map Row.llamadas_por_turno).sum)) = id := rfl
  rw [hid, List.map_id]
  exact List.mergeSort_perm _ _

/-! ## Concrete instances used by the witnesses -/

def sampleRow : Row :=
  { fecha := { month := 1, day := 1 }, mes := 1, dia_semana := "Lun", id_agente := "AG01",
    nombre_agente := "Carlos Mendez", experiencia_meses := 36, turno := "Manana",
    categoria_llamada := "Venta Nueva", llamadas_por_turno := 20,
    duracion_promedio_min := 8, score_satisfaccion := 7, score_qa := 80,
    tasa_error_pct := 12, resolucion_primera := "Si" }

def fullRangeFilters : Filters :=
  { fecha0 := { month := 1, day := 1 }, fecha1 := { month := 12, day := 31 },
    turnoSel := none, catSel := none, agenteSel := none }

def nocheFilters : Filters :=
  { fecha0 := { month := 1, day := 1 }, fecha1 := { month := 12, day := 31 },
    turnoSel := some "Noche", catSel := none, agenteSel := none }

/-! ## The claims -/

/-- C1: for every filter combination the filtered frame `df_f` of lines
119-125 is a sub-sequence (hence subset) of the full frame `df`, and it
is empty exactly when no row of `df` passes the conjunction of all
active filter predicates. -/
theorem filter_narrowing_subset_and_empty_iff (fs : Filters) (df : List Row) :
    (applyFilters fs df).Sublist df ∧
    ((applyFilters fs df = []) ↔ (df.all (fun r => !fullPred fs r) = true)) := by
  constructor
  · rw [applyFilters_eq_filter]
    exact List.filter_sublist df
  · rw [applyFilters_eq_filter]
    simp [List.filter_eq_nil_iff, List.all_eq_true]

/-- C2: on a non-empty filtered frame, each of the three mean KPIs of
lines 129-131 is exactly the arithmetic mean of its column over the
filtered rows, and recomputing any of them for the same filter state
yields the same value. -/
theorem filtered_kpis_are_column_means (fs : Filters) (df : List Row)
    (h : applyFilters fs df ≠ []) :
    score_qa_promedio (applyFilters fs df) =
      some (arithMean ((applyFilters fs df).map Row.score_qa)) ∧
    satisfaccion_promedio (applyFilters fs df) =
      some (arithMean ((applyFilters fs df).map Row.score_satisfaccion)) ∧
    tasa_error_promedio (applyFilters fs df) =
      some (arithMean ((applyFilters fs df).map Row.tasa_error_pct)) ∧
    (score_qa_promedio (applyFilters fs df) = score_qa_promedio (applyFilters fs df) ∧
     satisfaccion_promedio (applyFilters fs df) = satisfaccion_promedio (applyFilters fs df) ∧
     tasa_error_promedio (applyFilters fs df) = tasa_error_promedio (applyFilters fs df)) := by
  refine ⟨pandasMean_of_ne_nil _ ?_, pandasMean_of_ne_nil _ ?_, pandasMean_of_ne_nil _ ?_,
    rfl, rfl, rfl⟩ <;> simpa using h

theorem filtered_kpis_are_column_means_witness :
    applyFilters fullRangeFilters [sampleRow] ≠ [] ∧
    (score_qa_promedio (applyFilters fullRangeFilters [sampleRow]) =
      some (arithMean ((applyFilters fullRangeFilters [sampleRow]).map Row.score_qa)) ∧
    satisfaccion_promedio (applyFilters fullRangeFilters [sampleRow]) =
      some (arithMean ((applyFilters fullRangeFilters [sampleRow]).map Row.score_satisfaccion)) ∧
    tasa_error_promedio (applyFilters fullRangeFilters [sampleRow]) =
      some (arithMean ((applyFilters fullRangeFilters [sampleRow]).map Row.tasa_error_pct)) ∧
    (score_qa_promedio (applyFilters fullRangeFilters [sampleRow]) =
        score_qa_promedio (applyFilters fullRangeFilters [sampleRow]) ∧
     satisfaccion_promedio (applyFilters fullRangeFilters [sampleRow]) =
        satisfaccion_promedio (applyFilters fullRangeFilters [sampleRow]) ∧
     tasa_error_promedio (applyFilters fullRangeFilters [sampleRow]) =
        tasa_error_promedio (applyFilters fullRangeFilters [sampleRow]))) :=
  ⟨by decide, filtered_kpis_are_column_means fullRangeFilters [sampleRow] (by decide)⟩

/-- C5: when the filtered frame is empty, each of the three mean KPIs
of lines 129-131 is `NaN` (modelled `none`): the total function
`pandasMean` returns its empty-column value and no error path exists. -/
theorem empty_filter_kpis_nan (fs : Filters) (df : List Row)
    (h : applyFilters fs df = []) :
    score_qa_promedio (applyFilters fs df) = none ∧
    satisfaccion_promedio (applyFilters fs df) = none ∧
    tasa_error_promedio (applyFilters fs df) = none := by
  rw [h]
  exact ⟨rfl, rfl, rfl⟩

theorem empty_filter_kpis_nan_witness :
    applyFilters nocheFilters [sampleRow] = [] ∧
    (score_qa_promedio (applyFilters nocheFilters [sampleRow]) = none ∧
     satisfaccion_promedio (applyFilters nocheFilters [sampleRow]) = none ∧
     tasa_error_promedio (applyFilters nocheFilters [sampleRow]) = none) :=
  ⟨by decide, empty_filter_kpis_nan nocheFilters [sampleRow] (by decide)⟩

/-- C7: both per-agent aggregations of lines 135 and 141 emit exactly
one output row per distinct agent name of the filtered frame: their
key columns repeat no name, and a name appears in them exactly when
some filtered row carries it. -/
theorem per_agent_aggregation_one_row_per_agent (fs : Filters) (df : List Row) :
    ((qa_ag (applyFilters fs df)).map Prod.fst).Nodup ∧
    (∀ a : String, a ∈ (qa_ag (applyFilters fs df)).map Prod.fst ↔
      a ∈ (applyFilters fs df).map Row.nombre_agente) ∧
    ((sc_data (applyFilters fs df)).map Prod.fst).Nodup ∧
    (∀ a : String, a ∈ (sc_data (applyFilters fs df)).map Prod.fst ↔
      a ∈ (applyFilters fs df).map Row.nombre_agente) := by
  refine ⟨(qa_ag_fst_perm _).symm.nodup (List.nodup_dedup _), fun a => ?_,
    (sc_data_fst_perm _).symm.nodup (List.nodup_dedup _), fun a => ?_⟩
  · exact ((qa_ag_fst_perm _).mem_iff).trans List.mem_dedup
  · exact ((sc_data_fst_perm _).mem_iff).trans List.mem_dedup

/-- C8: one dashboard interaction maps the session state `df` to the
pair (full table, filtered view): the full table component is exactly
the input table — no row is mutated or deleted — and the view is a
sub-sequence of it. -/
theorem full_table_unchanged_by_filtering (df : List Row) (fs : Filters) :
    (dashboardStep df fs).1 = df ∧ (dashboardStep df fs).2.Sublist df := by
  refine ⟨rfl, ?_⟩
  show (applyFilters fs df).Sublist df
  rw [applyFilters_eq_filter]
  exact List.filter_sublist df

/-- C10: the date predicate of line 119 keeps a row exactly when its
`fecha` is at or after the selected start and at or before the selected
end — both boundary dates are included. -/
theorem date_range_filter_inclusive (d0 d1 : Date) (df : List Row) (r : Row) :
    r ∈ dateRangeFilter d0 d1 df ↔
      r ∈ df ∧ d0.toOffset ≤ r.fecha.toOffset ∧ r.fecha.toOffset ≤ d1.toOffset := by
  simp [dateRangeFilter, List.mem_filter, dateLE, and_assoc]

lemma round1_clipQ_mem (lo hi x : ℚ) (a b : ℤ) (hlo : lo = (a : ℚ)/10)
    (hhi : hi = (b : ℚ)/10) (h : lo ≤ hi) :
    lo ≤ round1 (clipQ lo hi x) ∧ round1 (clipQ lo hi x) ≤ hi := by
  constructor
  · rw [hlo]
    exact le_round1 _ a (by rw [← hlo]; exact le_clipQ lo hi x h)
  · rw [hhi]
    exact round1_le _ b (by rw [← hhi]; exact clipQ_le lo hi x)

lemma score_satisfaccion_bounds (dw : Draw) :
    1 ≤ score_satisfaccion dw ∧ score_satisfaccion dw ≤ 10 := by
  unfold score_satisfaccion
  exact round1_clipQ_mem 1 10 _ 10 100 (by norm_num) (by norm_num) (by norm_num)

lemma score_qa_bounds (dw : Draw) : 40 ≤ score_qa dw ∧ score_qa dw ≤ 100 := by
  unfold score_qa
  exact round1_clipQ_mem 40 100 _ 400 1000 (by norm_num) (by norm_num) (by norm_num)

/-- Draws used by the witnesses and counterexamples: one all-minimal
valid draw, and two that select agent index 3 (AG04). -/
def baseDraw : Draw :=
  { dateOff := 0, agentIdx := 0, turnoIdx := 0, llamadasBase := 10, bonusDia := 4,
    bonusDic := 3, catIdx := 0, duracionBase := 8, bonusCancel := 6, ruido := 0,
    qaNoise := 0, tasaNoise := 0, resol := true }

def ag04Draw : Draw :=
  { dateOff := 0, agentIdx := 3, turnoIdx := 0, llamadasBase := 10, bonusDia := 4,
    bonusDic := 3, catIdx := 0, duracionBase := 8, bonusCancel := 6, ruido := 0,
    qaNoise := 0, tasaNoise := 1/100, resol := true }

def ag04MaxDraw : Draw :=
  { dateOff := 0, agentIdx := 3, turnoIdx := 0, llamadasBase := 10, bonusDia := 4,
    bonusDic := 3, catIdx := 0, duracionBase := 8, bonusCancel := 6, ruido := 0,
    qaNoise := 0, tasaNoise := 24, resol := true }

/-- C4: every generated row, whatever the random draws, has its
satisfaction score in [1, 10] and its QA score in [0, 100] (line 63
clips to [1, 10]; line 67 clips to [40, 100] ⊆ [0, 100]; the final
one-decimal rounding cannot leave either interval). -/
theorem generated_scores_within_ranges (draws : List Draw) :
    (load_data draws).all (fun r =>
      decide (1 ≤ r.score_satisfaccion) && decide (r.score_satisfaccion ≤ 10) &&
      decide (0 ≤ r.score_qa) && decide (r.score_qa ≤ 100)) = true := by
  rw [List.all_eq_true]
  intro r hr
  rw [load_data, List.mem_map] at hr
  obtain ⟨dw, -, rfl⟩ := hr
  have h1 := score_satisfaccion_bounds dw
  have h2 := score_qa_bounds dw
  simp only [Bool.and_eq_true, decide_eq_true_iff]
  exact ⟨⟨⟨h1.1, h1.2⟩, le_trans (by norm_num) h2.1⟩, h2.2⟩

/-- C6: for every generated row, re-deriving the month and the weekday
name from the stored date reproduces the `mes` and `dia_semana` fields,
and the date survives the line 78 `strftime` / line 93 `to_datetime`
round trip (so reloading the documented CSV re-derives the same
values). -/
theorem date_fields_roundtrip (dw : Draw) (h : dw.Valid) :
    parseDate (strftimeD ((mkRow dw).fecha)) = some ((mkRow dw).fecha) ∧
    (mkRow dw).mes = ((mkRow dw).fecha).month ∧
    (mkRow dw).dia_semana = dias_nombres.getD (weekdayOfDate ((mkRow dw).fecha)) "Lun" := by
  obtain ⟨hd, -⟩ := h
  refine ⟨parse_strftime_dateOfOffset dw.dateOff hd, rfl, ?_⟩
  show dias_nombres.getD (dia_semanaOf dw) "Lun" =
    dias_nombres.getD (weekdayOfDate (fechaOf dw)) "Lun"
  unfold weekdayOfDate dia_semanaOf fechaOf
  rw [toOffset_dateOfOffset dw.dateOff hd]

theorem date_fields_roundtrip_witness :
    baseDraw.Valid ∧
    (parseDate (strftimeD ((mkRow baseDraw).fecha)) = some ((mkRow baseDraw).fecha) ∧
     (mkRow baseDraw).mes = ((mkRow baseDraw).fecha).month ∧
     (mkRow baseDraw).dia_semana =
       dias_nombres.getD (weekdayOfDate ((mkRow baseDraw).fecha)) "Lun") :=
  ⟨by decide, date_fields_roundtrip baseDraw (by decide)⟩

/-- C3 fails on the code: nothing in `load_data` enforces uniqueness of
(date, agent, shift, category) — the 600 rows are drawn independently
(lines 39-53), so a stream of valid draws can repeat the whole key.
This exhibits such a stream. -/
theorem key_not_unique_counterexample :
    ¬ (∀ draws : List Draw, draws.length = 600 → (∀ dw ∈ draws, dw.Valid) →
        KeyUnique (load_data draws)) := by
  intro hall
  have h := hall (List.replicate 600 baseDraw) (List.length_replicate 600 baseDraw)
    (fun dw hdw => by rw [List.eq_of_mem_replicate hdw]; decide)
  unfold KeyUnique load_data at h
  rw [List.map_replicate, List.map_replicate, List.nodup_replicate] at h
  norm_num at h

/-- C3 amended: (date, agent, shift, category) is not a key of the
generated table — duplicates are possible — but every generated row's
key fields lie in the documented domains: a 2024 date, one of the
eight agent ids, one of the three shifts, one of the five
categories. -/
theorem generated_key_fields_in_domain (dw : Draw) (h : dw.Valid) :
    ((mkRow dw).fecha.toOffset < 365 ∧
      dateOfOffset ((mkRow dw).fecha.toOffset) = (mkRow dw).fecha) ∧
    (mkRow dw).id_agente ∈ agentes.map (fun ag => ag.1) ∧
    (mkRow dw).turno ∈ turnos ∧
    (mkRow dw).categoria_llamada ∈ categorias := by
  obtain ⟨hd, ha, ht, -, -, -, -, -, -, hc, -⟩ := h
  refine ⟨?_, ?_, ?_, ?_⟩
  · rw [show (mkRow dw).fecha = dateOfOffset dw.dateOff from rfl,
      toOffset_dateOfOffset dw.dateOff hd]
    exact ⟨hd, rfl⟩
  · show id_agenteOf dw ∈ _
    unfold id_agenteOf agenteOf
    rw [List.getD_eq_getElem _ _ (show dw.agentIdx < agentes.length from ha)]
    exact List.mem_map_of_mem _ (List.getElem_mem _)
  · show turnoOf dw ∈ _
    unfold turnoOf
    rw [List.getD_eq_getElem _ _ (show dw.turnoIdx < turnos.length from ht)]
    exact List.getElem_mem _
  · show categoriaOf dw ∈ _
    unfold categoriaOf
    rw [List.getD_eq_getElem _ _ (show dw.catIdx < categorias.length from hc)]
    exact List.getElem_mem _

theorem generated_key_fields_in_domain_witness :
    baseDraw.Valid ∧
    (((mkRow baseDraw).fecha.toOffset < 365 ∧
       dateOfOffset ((mkRow baseDraw).fecha.toOffset) = (mkRow baseDraw).fecha) ∧
     (mkRow baseDraw).id_agente ∈ agentes.map (fun ag => ag.1) ∧
     (mkRow baseDraw).turno ∈ turnos ∧
     (mkRow baseDraw).categoria_llamada ∈ categorias) :=
  ⟨by decide, generated_key_fields_in_domain baseDraw (by decide)⟩

lemma tasa_base_ag04Draw : tasa_base ag04Draw = 1641/100 := by
  have hexp : experienciaOf ag04Draw = 18 := rfl
  unfold tasa_base
  rw [hexp, show ag04Draw.tasaNoise = 1/100 from rfl]
  unfold clipQ
  rw [show (20 : ℚ) - (18 : ℕ) * 0.2 + 1/100 = 1641/100 by push_cast; norm_num,
    max_eq_left (by norm_num), min_eq_left (by norm_num)]

/-- C9 fails on the code as stated: line 70 rounds the adjusted rate to
one decimal, so for AG04 the stored value is the rounding of 1.8 times
the clamped base, not that product itself.  With base noise 0.01 the
clamped base is 16.41, the product 29.538, but the stored value
29.5. -/
theorem ag04_error_rate_counterexample :
    (mkRow ag04Draw).id_agente = "AG04" ∧
    (mkRow ag04Draw).tasa_error_pct ≠ tasa_base ag04Draw * 1.8 := by
  refine ⟨rfl, ?_⟩
  show tasa_error ag04Draw ≠ tasa_base ag04Draw * 1.8
  unfold tasa_error
  rw [if_pos (show id_agenteOf ag04Draw = "AG04" from rfl), tasa_base_ag04Draw]
  have hprod : (1641 : ℚ)/100 * 1.8 = 14769/500 := by norm_num
  rw [hprod]
  unfold round1 roundEven
  have hf : ⌊(10 : ℚ) * (14769/500)⌋ = 295 := by norm_num
  rw [hf]
  rw [if_pos (by norm_num)]
  norm_num

/-- C9 amended: the error-rate base of line 69 is clamped to [2, 40]
before the agent adjustment, and for every AG04 row the stored
`tasa_error_pct` is 1.8 times that clamped base *rounded to one
decimal*; it therefore lies in [3.6, 72], and it can exceed 40 (the
concrete draw `ag04MaxDraw` reaches 72), unlike any clamped base. -/
theorem ag04_error_rate_amended (dw : Draw) (h : (mkRow dw).id_agente = "AG04") :
    (mkRow dw).tasa_error_pct = round1 (tasa_base dw * 1.8) ∧
    (3.6 : ℚ) ≤ (mkRow dw).tasa_error_pct ∧ (mkRow dw).tasa_error_pct ≤ 72 ∧
    (40 : ℚ) < (mkRow ag04MaxDraw).tasa_error_pct := by
  have hid : id_agenteOf dw = "AG04" := h
  have heq : tasa_error dw = round1 (tasa_base dw * 1.8) := by
    unfold tasa_error
    rw [if_pos hid]
  have hb1 : 2 ≤ tasa_base dw := le_clipQ _ _ _ (by norm_num)
  have hb2 : tasa_base dw ≤ 40 := clipQ_le _ _ _
  have hmax : tasa_base ag04MaxDraw = 40 := by
    have hexp : experienciaOf ag04MaxDraw = 18 := rfl
    unfold tasa_base
    rw [hexp, show ag04MaxDraw.tasaNoise = (24 : ℚ) from rfl]
    unfold clipQ
    rw [show (20 : ℚ) - (18 : ℕ) * 0.2 + 24 = 202/5 by push_cast; norm_num,
      max_eq_left (by norm_num), min_eq_right (by norm_num)]
  refine ⟨heq, ?_, ?_, ?_⟩
  · show (3.6 : ℚ) ≤ tasa_error dw
    rw [heq]
    have := le_round1 (tasa_base dw * 1.8) 36 (by push_cast; norm_num; linarith)
    have h36 : ((36 : ℤ) : ℚ)/10 = 3.6 := by norm_num
    linarith
  · show tasa_error dw ≤ 72
    rw [heq]
    have := round1_le (tasa_base dw * 1.8) 720 (by push_cast; norm_num; linarith)
    have h720 : ((720 : ℤ) : ℚ)/10 = 72 := by norm_num
    linarith
  · show (40 : ℚ) < tasa_error ag04MaxDraw
    unfold tasa_error
    rw [if_pos (show id_agenteOf ag04MaxDraw = "AG04" from rfl), hmax]
    have hprod : (40 : ℚ) * 1.8 = 72 := by norm_num
    rw [hprod]
    unfold round1 roundEven
    have hf : ⌊(10 : ℚ) * 72⌋ = 720 := by norm_num
    rw [hf]
    rw [if_pos (by norm_num)]
    norm_num

theorem ag04_error_rate_amended_witness :
    (mkRow ag04MaxDraw).id_agente = "AG04" ∧
    ((mkRow ag04MaxDraw).tasa_error_pct = round1 (tasa_base ag04MaxDraw * 1.8) ∧
     (3.6 : ℚ) ≤ (mkRow ag04MaxDraw).tasa_error_pct ∧
     (mkRow ag04MaxDraw).tasa_error_pct ≤ 72 ∧
     (40 : ℚ) < (mkRow ag04MaxDraw).tasa_error_pct) :=
  ⟨rfl, ag04_error_rate_amended ag04MaxDraw rfl⟩
